import Mathlib

/-!
Verification development for the stress_dost adaptive scoring and selection
engine.  The Python sources are shallowly embedded: Python floats are modelled
as rationals, dictionaries as association lists (insertion order preserved,
assignment replaces in place), `datetime` values as rational minute stamps
passed explicitly, and the random module as an oracle parameter supplying
indices.  Fallible code returns `Except` / `Option`.
-/

/-! ## Generic helpers: Python dict and list modelling -/

/-- Python dict assignment: replace the value in place when the key is
present, append otherwise (insertion order preserved). -/
def dictSet {κ α : Type} [BEq κ] (d : List (κ × α)) (k : κ) (v : α) :
    List (κ × α) :=
  if d.any (fun p => p.1 == k) then
    d.map (fun p => if p.1 == k then (k, v) else p)
  else d ++ [(k, v)]

/-- Python dict `.get(k, default)` over an association list. -/
def dictGetD {α : Type} (d : List (String × α)) (k : String) (v : α) : α :=
  (d.lookup k).getD v

/-- Order-preserving deduplication, keeping first occurrences: the behaviour
of iterating a Python `dict.fromkeys` / `seen`-set loop. -/
def dedupeFrom (seen : List String) : List String → List String
  | [] => []
  | t :: ts => if t ∈ seen then dedupeFrom seen ts else t :: dedupeFrom (t :: seen) ts

def dedupe (l : List String) : List String := dedupeFrom [] l

/-- Banker's rounding (Python `round`) of a rational to the nearest integer. -/
def roundHalfEven (x : ℚ) : ℤ :=
  let f : ℤ := ⌊x⌋
  let r : ℚ := x - f
  if r < 1/2 then f
  else if 1/2 < r then f + 1
  else if f % 2 = 0 then f else f + 1

/-- Python `round(x, 3)`. -/
def round3 (x : ℚ) : ℚ := (roundHalfEven (x * 1000) : ℚ) / 1000

/-- Python `round(x, 2)`. -/
def round2 (x : ℚ) : ℚ := (roundHalfEven (x * 100) : ℚ) / 100

/-! ## meter_calculation_v2.py : data structures -/

/-- `StudentCalibration` dataclass. -/
structure StudentCalibration where
  baseline_reaction_time : ℚ
  accuracy_baseline : ℚ
  anxiety_level : String
  processing_speed : String
deriving DecidableEq

/-- `StudentCalibration.time_thresholds`: (quick, moderate, slow). -/
def StudentCalibration.time_thresholds (c : StudentCalibration) : ℚ × ℚ × ℚ :=
  let quick_multiplier : ℚ :=
    if c.processing_speed = "fast" then 0.7
    else if c.processing_speed = "normal" then 0.85 else 1.0
  let slow_multiplier : ℚ :=
    if c.processing_speed = "fast" then 1.5
    else if c.processing_speed = "normal" then 1.3 else 1.2
  (c.baseline_reaction_time * quick_multiplier,
   c.baseline_reaction_time,
   c.baseline_reaction_time * slow_multiplier)

/-- `TriggerResponse` dataclass (timestamp as a rational stamp). -/
structure TriggerResponse where
  trigger_text : String
  trigger_type : String
  category : String
  trigger_value : ℚ
  time_taken : ℚ
  selected_option : Option ℤ
  main_question_correct : Bool
  main_question_time : ℚ
  timestamp : ℚ
  repeat_count : ℕ
deriving DecidableEq

/-- `MeterState` dataclass. -/
structure MeterState where
  fear_meter : ℚ := 0.0
  thought_meter : ℚ := 0.0
  frustration_meter : ℚ := 0.0
deriving DecidableEq

/-- `MeterState.get_dominant_meter`: Python `max` over the insertion-ordered
dict keeps the first of equals (fear, then thoughts, then frustration). -/
def MeterState.get_dominant_meter (s : MeterState) : String × ℚ :=
  if s.thought_meter ≤ s.fear_meter ∧ s.frustration_meter ≤ s.fear_meter then
    ("fear", s.fear_meter)
  else if s.frustration_meter ≤ s.thought_meter then
    ("thoughts", s.thought_meter)
  else
    ("frustration", s.frustration_meter)

/-- `MeterState.get_severity_level`. -/
def MeterState.get_severity_level (s : MeterState) : String :=
  let avg := (s.fear_meter + s.thought_meter + s.frustration_meter) / 3
  if avg < 0.3 then "low"
  else if avg < 0.6 then "moderate"
  else "high"

/-! ## meter_calculation_v2.py : MeterCalculator -/

def DECAY_FACTOR : ℚ := 0.95
def MAX_METER : ℚ := 1
def MIN_METER : ℚ := 0
def SENSITIZATION_RATE : ℚ := 0.1
def HABITUATION_RATE : ℚ := 0.1

/-- Mutable state of a `MeterCalculator` instance. -/
structure MeterCalculator where
  calibration : StudentCalibration
  trigger_history : List (String × ℕ)
  response_history : List TriggerResponse
deriving DecidableEq

/-- `MeterCalculator.categorize_response_time`. -/
def categorize_response_time (self : MeterCalculator) (time_taken : ℚ) : String :=
  let thresholds := self.calibration.time_thresholds
  if time_taken ≤ thresholds.1 then "quick"
  else if time_taken ≤ thresholds.2.2 then "moderate"
  else "slow"

/-- `MeterCalculator._calculate_option_based_impact`: the multiplier dict
lookup defaults to 0.5 for an unknown (or missing) option index. -/
def calculate_option_based_impact (trigger_value : ℚ)
    (selected_option : Option ℤ) : ℚ :=
  let multiplier : ℚ :=
    match selected_option with
    | some 0 => 0.90
    | some 1 => 0.25
    | some 2 => 0.50
    | _ => 0.5
  trigger_value * multiplier

/-- `MeterCalculator._calculate_sarcasm_impact`. -/
def calculate_sarcasm_impact (trigger_value : ℚ)
    (response_time_category : String) (answer_correct : Bool) : ℚ :=
  let multiplier : ℚ :=
    if response_time_category = "slow" then
      if answer_correct then 0.60 else 1.00
    else
      if answer_correct then 0.10 else 0.35
  trigger_value * multiplier

/-- `MeterCalculator.calculate_base_impact`. -/
def calculate_base_impact (trigger_type : String) (trigger_value : ℚ)
    (response_time_category : String) (answer_correct : Bool)
    (selected_option : Option ℤ) : ℚ :=
  if trigger_type = "option_based" then
    calculate_option_based_impact trigger_value selected_option
  else if trigger_type = "sarcasm" then
    calculate_sarcasm_impact trigger_value response_time_category answer_correct
  else if trigger_type = "motivation" then
    trigger_value
  else
    0

/-- `MeterCalculator.apply_repeat_modifier`. -/
def apply_repeat_modifier (self : MeterCalculator) (trigger_text : String)
    (base_impact : ℚ) (previous_response_was_negative : Bool) : ℚ :=
  let repeat_count : ℕ := (self.trigger_history.lookup trigger_text).getD 0
  if repeat_count = 0 then base_impact
  else if previous_response_was_negative then
    let sensitization_factor : ℚ := 1.0 + SENSITIZATION_RATE * repeat_count
    min (base_impact * sensitization_factor) (base_impact * 0.95)
  else
    let habituation_factor : ℚ := (1.0 - HABITUATION_RATE) ^ repeat_count
    max (base_impact * habituation_factor) (base_impact * 0.1)

/-- `MeterCalculator.apply_performance_context_modifier`. -/
def apply_performance_context_modifier (self : MeterCalculator)
    (base_impact : ℚ) (main_question_time : ℚ)
    (main_question_correct : Bool) : ℚ :=
  let time_category := categorize_response_time self main_question_time
  let modifier : ℚ :=
    if main_question_correct && (time_category == "quick") then 0.85
    else if main_question_correct && (time_category == "moderate") then 1.0
    else if main_question_correct && (time_category == "slow") then 1.0
    else if !main_question_correct && (time_category == "quick") then 1.10
    else if !main_question_correct && (time_category == "moderate") then 1.15
    else 1.20
  base_impact * modifier

/-- The update dict built by `calculate_meter_update`. -/
structure MeterUpdates where
  fear : ℚ
  thoughts : ℚ
  frustration : ℚ
  response_time_category : String
  base_impact_before_modifiers : ℚ
  final_impact : ℚ
deriving DecidableEq

/-- `MeterCalculator.calculate_meter_update` (also returns the calculator,
whose `trigger_history` is mutated in step 5). -/
def calculate_meter_update (self : MeterCalculator) (response : TriggerResponse) :
    MeterUpdates × MeterCalculator :=
  let response_time_category := categorize_response_time self response.time_taken
  let base_impact := calculate_base_impact response.trigger_type
    response.trigger_value response_time_category
    response.main_question_correct response.selected_option
  let previous_negative : Bool :=
    match response.selected_option with
    | some o => o == 0
    | none => false
  let base_impact := apply_repeat_modifier self response.trigger_text
    base_impact previous_negative
  let base_impact := apply_performance_context_modifier self base_impact
    response.main_question_time response.main_question_correct
  let self1 : MeterCalculator :=
    { self with
        trigger_history :=
          dictSet self.trigger_history response.trigger_text
            (response.repeat_count + 1) }
  let updates : MeterUpdates :=
    { fear := if response.category = "fear" then base_impact else 0
      thoughts := if response.category = "thoughts" then base_impact else 0
      frustration := if response.category = "frustration" then base_impact else 0
      response_time_category := response_time_category
      base_impact_before_modifiers := response.trigger_value
      final_impact := base_impact }
  (updates, self1)

/-- `MeterCalculator.apply_updates_to_meters`. -/
def apply_updates_to_meters (current_state : MeterState)
    (updates : MeterUpdates) : MeterState :=
  let fear_update := updates.fear
  let thoughts_update := updates.thoughts
  let frustration_update := updates.frustration
  let new_state : MeterState :=
    { fear_meter := current_state.fear_meter * DECAY_FACTOR
      thought_meter := current_state.thought_meter * DECAY_FACTOR
      frustration_meter := current_state.frustration_meter * DECAY_FACTOR }
  { fear_meter := min MAX_METER (max MIN_METER (new_state.fear_meter + fear_update))
    thought_meter := min MAX_METER (max MIN_METER (new_state.thought_meter + thoughts_update))
    frustration_meter := min MAX_METER (max MIN_METER (new_state.frustration_meter + frustration_update)) }

/-- The analysis dict built by `process_trigger_response`. -/
structure MeterAnalysis where
  response_time_category : String
  base_impact : ℚ
  final_impact : ℚ
  meters_before : ℚ × ℚ × ℚ
  meters_after : ℚ × ℚ × ℚ
  dominant_stress_before : String
  dominant_stress_after : String
  severity_before : String
  severity_after : String
  trigger_repeat_count : ℕ
deriving DecidableEq

/-- `MeterCalculator.process_trigger_response`. -/
def process_trigger_response (self : MeterCalculator)
    (response : TriggerResponse) (current_state : MeterState) :
    MeterState × MeterAnalysis × MeterCalculator :=
  let upd := calculate_meter_update self response
  let updates := upd.1
  let self1 := upd.2
  let new_state := apply_updates_to_meters current_state updates
  let analysis : MeterAnalysis :=
    { response_time_category := updates.response_time_category
      base_impact := updates.base_impact_before_modifiers
      final_impact := updates.final_impact
      meters_before := (round3 current_state.fear_meter,
        round3 current_state.thought_meter, round3 current_state.frustration_meter)
      meters_after := (round3 new_state.fear_meter,
        round3 new_state.thought_meter, round3 new_state.frustration_meter)
      dominant_stress_before := current_state.get_dominant_meter.1
      dominant_stress_after := new_state.get_dominant_meter.1
      severity_before := current_state.get_severity_level
      severity_after := new_state.get_severity_level
      trigger_repeat_count := (self1.trigger_history.lookup response.trigger_text).getD 1 }
  (new_state, analysis, self1)

/-! ## Claims C1, C2, C5, C10 -/

/-- C1: for every starting `MeterState` and every update dict produced by
`calculate_meter_update`, the state returned by `apply_updates_to_meters` has
all three meters in [0,1], and each meter equals the 0.95-decayed old value
plus the category update, clamped to [0,1]. -/
theorem claimC1_meter_update_bounds
    (mc : MeterCalculator) (st : MeterState) (resp : TriggerResponse) :
    let upd := (calculate_meter_update mc resp).1
    let st2 := apply_updates_to_meters st upd
    (0 ≤ st2.fear_meter ∧ st2.fear_meter ≤ 1) ∧
    (0 ≤ st2.thought_meter ∧ st2.thought_meter ≤ 1) ∧
    (0 ≤ st2.frustration_meter ∧ st2.frustration_meter ≤ 1) ∧
    st2.fear_meter = min 1 (max 0 (st.fear_meter * 0.95 + upd.fear)) ∧
    st2.thought_meter = min 1 (max 0 (st.thought_meter * 0.95 + upd.thoughts)) ∧
    st2.frustration_meter = min 1 (max 0 (st.frustration_meter * 0.95 + upd.frustration)) := by
  intro upd st2
  refine ⟨⟨?_, ?_⟩, ⟨?_, ?_⟩, ⟨?_, ?_⟩, rfl, rfl, rfl⟩ <;>
    first
      | exact le_min (by norm_num [MAX_METER]) (le_max_left 0 _)
      | exact min_le_left _ _

/-- C2: end-to-end scenario — sarcasm trigger, value 0.75, category fear,
slow reaction, main question correct and slow, repeat_count 0, empty trigger
history, meters all 0: final impact is 0.75 * 0.60 = 0.45, the fear meter
becomes 0 * 0.95 + 0.45 = 0.45, and thought/frustration meters stay 0. -/
theorem claimC2_sarcasm_slow_correct :
    (process_trigger_response ⟨⟨3, 0.7, "moderate", "normal"⟩, [], []⟩
        ⟨"What if I fail?", "sarcasm", "fear", 0.75, 5, none, true, 5, 0, 0⟩
        ⟨0, 0, 0⟩).2.1.final_impact = 0.45 ∧
    (process_trigger_response ⟨⟨3, 0.7, "moderate", "normal"⟩, [], []⟩
        ⟨"What if I fail?", "sarcasm", "fear", 0.75, 5, none, true, 5, 0, 0⟩
        ⟨0, 0, 0⟩).1 =
      { fear_meter := 0.45, thought_meter := 0, frustration_meter := 0 } := by
  have htc : categorize_response_time ⟨⟨3, 0.7, "moderate", "normal"⟩, [], []⟩ 5
      = "slow" := by
    simp [categorize_response_time, StudentCalibration.time_thresholds]
    norm_num
  have hbase : calculate_base_impact "sarcasm" 0.75 "slow" true none
      = (9/20 : ℚ) := by
    simp [calculate_base_impact, calculate_sarcasm_impact]
    norm_num
  have hrep : apply_repeat_modifier ⟨⟨3, 0.7, "moderate", "normal"⟩, [], []⟩
      "What if I fail?" (9/20) false = (9/20 : ℚ) := by
    simp [apply_repeat_modifier]
  have hperf : apply_performance_context_modifier
      ⟨⟨3, 0.7, "moderate", "normal"⟩, [], []⟩ (9/20) 5 true = (9/20 : ℚ) := by
    rw [apply_performance_context_modifier, htc]
    simp
    norm_num
  simp only [process_trigger_response, calculate_meter_update]
  rw [htc, hbase]
  simp only [hrep, hperf]
  simp [apply_updates_to_meters, DECAY_FACTOR, MAX_METER, MIN_METER,
    MeterState.mk.injEq]
  norm_num

/-- C5: the repeat modifier — with n recorded prior occurrences of the
trigger text in the engine history: n = 0 passes the impact through
unchanged; n ≥ 1 on the negative path (previous selection option 0)
multiplies by 1 + 0.1n capped at 0.95 of the pre-modifier impact, so it
never exceeds 0.95 of the first-occurrence impact; n ≥ 1 otherwise
multiplies by 0.9^n floored at 0.1 of the pre-modifier impact. -/
theorem claimC5_repeat_modifier
    (mc : MeterCalculator) (text : String) (impact : ℚ) (prevNeg : Bool) :
    ((mc.trigger_history.lookup text).getD 0 = 0 →
      apply_repeat_modifier mc text impact prevNeg = impact) ∧
    (1 ≤ (mc.trigger_history.lookup text).getD 0 → prevNeg = true →
      apply_repeat_modifier mc text impact prevNeg =
        min (impact * (1 + 0.1 * ((mc.trigger_history.lookup text).getD 0 : ℕ)))
          (impact * 0.95) ∧
      apply_repeat_modifier mc text impact prevNeg ≤ impact * 0.95) ∧
    (1 ≤ (mc.trigger_history.lookup text).getD 0 → prevNeg = false →
      apply_repeat_modifier mc text impact prevNeg =
        max (impact * 0.9 ^ ((mc.trigger_history.lookup text).getD 0))
          (impact * 0.1)) := by
  refine ⟨?_, ?_, ?_⟩
  · intro h0
    simp [apply_repeat_modifier, h0]
  · intro h1 hneg
    have h0 : ¬ (mc.trigger_history.lookup text).getD 0 = 0 := by omega
    constructor
    · simp only [apply_repeat_modifier, h0, if_false, hneg, if_true, ite_false,
        ite_true, SENSITIZATION_RATE]
      norm_num
    · simp only [apply_repeat_modifier, h0, hneg, ite_false, ite_true]
      exact min_le_right _ _
  · intro h1 hneg
    have h0 : ¬ (mc.trigger_history.lookup text).getD 0 = 0 := by omega
    simp only [apply_repeat_modifier, h0, hneg, ite_false, ite_true,
      HABITUATION_RATE]
    norm_num

/-- Witness for C5 at a concrete engine with 2 prior occurrences of the
trigger text, on the sensitization path. -/
theorem claimC5_repeat_modifier_witness :
    apply_repeat_modifier ⟨⟨3, 0.7, "moderate", "normal"⟩, [("t", 2)], []⟩ "t"
        (1/2) true
      = min ((1/2 : ℚ) *
          (1 + 0.1 * ((([("t", 2)].lookup "t").getD 0 : ℕ))))
          ((1/2 : ℚ) * 0.95) ∧
    apply_repeat_modifier ⟨⟨3, 0.7, "moderate", "normal"⟩, [("t", 2)], []⟩ "t"
        (1/2) true ≤ (1/2 : ℚ) * 0.95 := by
  have h := claimC5_repeat_modifier
    ⟨⟨3, 0.7, "moderate", "normal"⟩, [("t", 2)], []⟩ "t" (1/2) true
  exact h.2.1 (by decide) rfl

/-- C10: a response whose trigger_type is none of option_based / sarcasm /
motivation gets base impact 0.0 and the full pipeline leaves only pure
clamped decay on all three meters; likewise a response whose category is
none of fear / thoughts / frustration adds its impact to no meter, so all
three meters only decay. -/
theorem claimC10_unknown_type_or_category
    (mc : MeterCalculator) (st : MeterState) (resp : TriggerResponse) :
    (resp.trigger_type ≠ "option_based" → resp.trigger_type ≠ "sarcasm" →
      resp.trigger_type ≠ "motivation" →
      calculate_base_impact resp.trigger_type resp.trigger_value
          (categorize_response_time mc resp.time_taken)
          resp.main_question_correct resp.selected_option = 0 ∧
      (process_trigger_response mc resp st).1 =
        { fear_meter := min 1 (max 0 (st.fear_meter * 0.95))
          thought_meter := min 1 (max 0 (st.thought_meter * 0.95))
          frustration_meter := min 1 (max 0 (st.frustration_meter * 0.95)) }) ∧
    (resp.category ≠ "fear" → resp.category ≠ "thoughts" →
      resp.category ≠ "frustration" →
      (process_trigger_response mc resp st).1 =
        { fear_meter := min 1 (max 0 (st.fear_meter * 0.95))
          thought_meter := min 1 (max 0 (st.thought_meter * 0.95))
          frustration_meter := min 1 (max 0 (st.frustration_meter * 0.95)) }) := by
  constructor
  · intro h1 h2 h3
    have hbase : calculate_base_impact resp.trigger_type resp.trigger_value
        (categorize_response_time mc resp.time_taken)
        resp.main_question_correct resp.selected_option = 0 := by
      simp [calculate_base_impact, h1, h2, h3]
    refine ⟨hbase, ?_⟩
    have hrep : ∀ b, apply_repeat_modifier mc resp.trigger_text 0 b = 0 := by
      intro b
      simp only [apply_repeat_modifier]
      split
      · rfl
      · split <;> simp
    have hperf : apply_performance_context_modifier mc 0
        resp.main_question_time resp.main_question_correct = 0 := by
      simp [apply_performance_context_modifier]
    simp only [process_trigger_response, calculate_meter_update, hbase, hrep,
      hperf, apply_updates_to_meters]
    simp [MeterState.mk.injEq, DECAY_FACTOR, MAX_METER, MIN_METER]
  · intro h1 h2 h3
    simp only [process_trigger_response, calculate_meter_update,
      apply_updates_to_meters]
    simp [h1, h2, h3, MeterState.mk.injEq, DECAY_FACTOR, MAX_METER, MIN_METER]

/-- Witness for C10 at a concrete unknown-type response and a state whose
meters exercise the clamp. -/
theorem claimC10_witness :
    (process_trigger_response ⟨⟨3, 0.7, "moderate", "normal"⟩, [], []⟩
        ⟨"x", "mystery", "fear", 0.5, 1, none, true, 1, 0, 0⟩
        ⟨0.5, 2, -1⟩).1 =
      { fear_meter := min 1 (max 0 ((0.5 : ℚ) * 0.95))
        thought_meter := min 1 (max 0 ((2 : ℚ) * 0.95))
        frustration_meter := min 1 (max 0 ((-1 : ℚ) * 0.95)) } := by
  exact ((claimC10_unknown_type_or_category
    ⟨⟨3, 0.7, "moderate", "normal"⟩, [], []⟩ ⟨0.5, 2, -1⟩
    ⟨"x", "mystery", "fear", 0.5, 1, none, true, 1, 0, 0⟩).1
    (by simp) (by simp) (by simp)).2

/-! ## meter_calculation_v2.py : DifficultyAdjuster -/

def WINDOW_SIZE : ℕ := 4

/-- `DifficultyAdjuster.add_performance` acting on the performance window. -/
def add_performance (w : List (Bool × ℚ)) (correct : Bool) (time_taken : ℚ) :
    List (Bool × ℚ) :=
  let w2 := w ++ [(correct, time_taken)]
  if WINDOW_SIZE < w2.length then w2.drop 1 else w2

/-- `sum(1 for c, _ in self.performance_window if c)`. -/
def correct_count (w : List (Bool × ℚ)) : ℕ := (w.filter (fun p => p.1)).length

/-- `sum(t for _, t in self.performance_window) / len(self.performance_window)`. -/
def avg_time (w : List (Bool × ℚ)) : ℚ := (w.map (fun p => p.2)).sum / (w.length : ℚ)

/-- `DifficultyAdjuster.should_increase_difficulty`. -/
def should_increase_difficulty (w : List (Bool × ℚ)) : Bool :=
  if w.length < 3 then false
  else decide (3 ≤ correct_count w) && decide (avg_time w < 3.5)

/-- `DifficultyAdjuster.should_decrease_difficulty`. -/
def should_decrease_difficulty (w : List (Bool × ℚ)) : Bool :=
  if w.length < 2 then false
  else decide (correct_count w ≤ 1) || decide (5.0 < avg_time w)

/-- `DifficultyAdjuster.get_difficulty_adjustment`. -/
def get_difficulty_adjustment (w : List (Bool × ℚ)) : ℚ :=
  if should_increase_difficulty w then
    if correct_count w = 4 then 1.15 else 1.10
  else if should_decrease_difficulty w then
    if correct_count w = 0 then 0.80 else 0.90
  else 1.0

/-- Claim C3's difficulty rule written from the spec's words: 1.15 whenever
the window is unanimous-correct (all entries correct), 0.80 whenever it is
unanimous-wrong; increase checked before decrease. -/
def claimC3_spec_adjustment (w : List (Bool × ℚ)) : ℚ :=
  if 3 ≤ w.length ∧ 3 ≤ correct_count w ∧ avg_time w < 3.5 then
    if w.all (fun p => p.1) then 1.15 else 1.10
  else if 2 ≤ w.length ∧ (correct_count w ≤ 1 ∨ 5.0 < avg_time w) then
    if w.all (fun p => !p.1) then 0.80 else 0.90
  else 1.0

/-- The amended C3 rule: as claimed, except that the 1.15 bonus requires the
correct count to equal 4 (a full unanimous window), not mere unanimity. -/
def claimC3_amended_adjustment (w : List (Bool × ℚ)) : ℚ :=
  if 3 ≤ w.length ∧ 3 ≤ correct_count w ∧ avg_time w < 3.5 then
    if correct_count w = 4 then 1.15 else 1.10
  else if 2 ≤ w.length ∧ (correct_count w ≤ 1 ∨ 5.0 < avg_time w) then
    if w.all (fun p => !p.1) then 0.80 else 0.90
  else 1.0

theorem should_increase_iff (w : List (Bool × ℚ)) :
    should_increase_difficulty w = true ↔
      3 ≤ w.length ∧ 3 ≤ correct_count w ∧ avg_time w < 3.5 := by
  unfold should_increase_difficulty
  split
  · simp only [Bool.false_eq_true, false_iff]
    intro h
    omega
  · simp only [Bool.and_eq_true, decide_eq_true_eq]
    constructor
    · rintro ⟨h1, h2⟩
      exact ⟨by omega, h1, h2⟩
    · rintro ⟨_, h1, h2⟩
      exact ⟨h1, h2⟩

theorem should_decrease_iff (w : List (Bool × ℚ)) :
    should_decrease_difficulty w = true ↔
      2 ≤ w.length ∧ (correct_count w ≤ 1 ∨ 5.0 < avg_time w) := by
  unfold should_decrease_difficulty
  split
  · simp only [Bool.false_eq_true, false_iff]
    intro h
    omega
  · simp only [Bool.or_eq_true, decide_eq_true_eq]
    constructor
    · intro h
      exact ⟨by omega, h⟩
    · rintro ⟨_, h⟩
      exact h

theorem correct_count_eq_zero_iff (w : List (Bool × ℚ)) :
    correct_count w = 0 ↔ w.all (fun p => !p.1) = true := by
  simp only [correct_count, List.length_eq_zero, List.filter_eq_nil_iff,
    List.all_eq_true, Bool.not_eq_eq_eq_not, Bool.not_true]
  constructor
  · intro h p hp
    have := h p hp
    simp only [Bool.not_eq_true] at this
    exact this
  · intro h p hp
    simp only [h p hp, Bool.false_eq_true, not_false_eq_true]

/-- C3 counterexample: a unanimous-correct three-entry window with fast
average time gets 1.10 from the code, while the claim demands 1.15. -/
theorem claimC3_counterexample :
    get_difficulty_adjustment [(true, 2), (true, 2), (true, 2)] = 1.10 ∧
    claimC3_spec_adjustment [(true, 2), (true, 2), (true, 2)] = 1.15 ∧
    (1.10 : ℚ) ≠ 1.15 := by
  refine ⟨?_, ?_, by norm_num⟩
  · simp [get_difficulty_adjustment, should_increase_difficulty,
      should_decrease_difficulty, correct_count, avg_time]
    norm_num
  · simp [claimC3_spec_adjustment, correct_count, avg_time]
    norm_num

/-- C3 amended: the code's difficulty multiplier agrees, on every window,
with the claimed rule once the 1.15 tier is conditioned on a correct count
of exactly 4 instead of mere unanimity. -/
theorem claimC3_amended_rule (w : List (Bool × ℚ)) :
    get_difficulty_adjustment w = claimC3_amended_adjustment w := by
  unfold get_difficulty_adjustment claimC3_amended_adjustment
  by_cases hi : 3 ≤ w.length ∧ 3 ≤ correct_count w ∧ avg_time w < 3.5
  · rw [if_pos ((should_increase_iff w).2 hi), if_pos hi]
  · have hi2 : should_increase_difficulty w = false := by
      rcases Bool.eq_false_or_eq_true (should_increase_difficulty w) with h | h
      · exact absurd ((should_increase_iff w).1 h) hi
      · exact h
    rw [hi2, if_neg hi]
    by_cases hd : 2 ≤ w.length ∧ (correct_count w ≤ 1 ∨ 5.0 < avg_time w)
    · rw [if_pos hd]
      simp only [Bool.false_eq_true, if_false, if_pos ((should_decrease_iff w).2 hd)]
      by_cases hz : correct_count w = 0
      · rw [if_pos hz, if_pos ((correct_count_eq_zero_iff w).1 hz)]
      · rw [if_neg hz, if_neg (fun h => hz ((correct_count_eq_zero_iff w).2 h))]
    · have hd2 : should_decrease_difficulty w = false := by
        rcases Bool.eq_false_or_eq_true (should_decrease_difficulty w) with h | h
        · exact absurd ((should_decrease_iff w).1 h) hd
        · exact h
      rw [hd2, if_neg hd]
      simp

/-- C4 counterexample: the two-entry window [True, False] with average time
2.0 satisfies the decrease rule (2 samples, one correct), so the code
returns 0.90, while the claim asserts 1.0. -/
theorem claimC4_counterexample :
    get_difficulty_adjustment [(true, 2), (false, 2)] = 0.90 ∧
    (0.90 : ℚ) ≠ 1.0 := by
  refine ⟨?_, by norm_num⟩
  simp [get_difficulty_adjustment, should_increase_difficulty,
    should_decrease_difficulty, correct_count, avg_time]

/-- C4 amended: [True,True,True,True] with average time 2.0 yields 1.15,
[False,False,False,False] yields 0.80 for any times, and [True,False] with
average time 2.0 yields 0.90 because the decrease rule already fires with
two samples and at most one correct answer. -/
theorem claimC4_amended_values :
    get_difficulty_adjustment [(true, 2), (true, 2), (true, 2), (true, 2)] = 1.15 ∧
    (∀ a b c d : ℚ,
      get_difficulty_adjustment [(false, a), (false, b), (false, c), (false, d)]
        = 0.80) ∧
    get_difficulty_adjustment [(true, 2), (false, 2)] = 0.90 := by
  refine ⟨?_, ?_, ?_⟩
  · simp [get_difficulty_adjustment, should_increase_difficulty,
      should_decrease_difficulty, correct_count, avg_time]
    norm_num
  · intro a b c d
    simp [get_difficulty_adjustment, should_increase_difficulty,
      should_decrease_difficulty, correct_count, avg_time]
  · simp [get_difficulty_adjustment, should_increase_difficulty,
      should_decrease_difficulty, correct_count, avg_time]

/-! ## personality_mapper.py -/

/-- `PersonalityMapper.TRAIT_TO_TAG_MAPPING` (dimension → tier → tags),
insertion order preserved. -/
def TRAIT_TO_TAG_MAPPING : List (String × List (String × List String)) :=
  [("stress_sensitivity",
    [("low", ["calm_under_pressure", "composed", "resilient"]),
     ("medium", ["manageable_stress", "adaptive", "balanced"]),
     ("high", ["anxious_response", "needs_calm", "needs_support"])]),
   ("analytical_thinking",
    [("low", ["intuitive_learner", "big_picture", "creative"]),
     ("medium", ["balanced_analysis", "methodical", "structured"]),
     ("high", ["detail_oriented", "systematic", "logical"])]),
   ("social_preference",
    [("low", ["independent", "solo_work", "introverted"]),
     ("medium", ["selective_social", "flexible", "balanced_social"]),
     ("high", ["collaborative", "group_oriented", "extroverted"])]),
   ("intrinsic_motivation",
    [("low", ["extrinsic_driven", "grade_focused", "reward_motivated"]),
     ("medium", ["balanced_motivation", "mixed_drivers", "flexible"]),
     ("high", ["intrinsic_driven", "mastery_focused", "learning_oriented"])]),
   ("resilience",
    [("low", ["fragile_to_setbacks", "needs_encouragement", "recovery_support"]),
     ("medium", ["moderate_resilience", "recovers_with_help", "adaptable"]),
     ("high", ["bounces_back", "self_recovering", "strong_resilience"])]),
   ("self_confidence",
    [("low", ["low_confidence", "self_doubt", "confidence_building"]),
     ("medium", ["moderate_confidence", "situational_confidence", "developing"]),
     ("high", ["high_confidence", "capable", "self_assured"])]),
   ("planning_tendency",
    [("low", ["spontaneous", "flexible", "improviser"]),
     ("medium", ["balanced_planning", "adaptive_planning", "flexible_structure"]),
     ("high", ["organized", "structured", "planner"])]),
   ("openness_to_feedback",
    [("low", ["defensive", "resistant", "fixed_mindset"]),
     ("medium", ["receptive_with_caution", "growth_oriented", "learner"]),
     ("high", ["open_to_feedback", "growth_mindset", "seeker_of_input"])]),
   ("impulsivity",
    [("low", ["deliberate", "thoughtful", "careful"]),
     ("medium", ["balanced_pace", "measured", "considered"]),
     ("high", ["impulsive", "rushing", "needs_slowdown"])]),
   ("time_awareness",
    [("low", ["poor_time_sense", "panic_at_end", "needs_timing"]),
     ("medium", ["adequate_time_sense", "manageable_awareness", "improving"]),
     ("high", ["excellent_timer", "time_aware", "strategic_pacing"])]),
   ("distraction_resistance",
    [("low", ["easily_distracted", "needs_focus_support", "focus_help"]),
     ("medium", ["moderate_focus", "situational_focus", "variable_focus"]),
     ("high", ["excellent_focus", "deep_focus", "flow_capable"])])]

/-- `PersonalityMapper.CATEGORY_TAG_ENRICHMENT`. -/
def CATEGORY_TAG_ENRICHMENT : List (String × List (String × List String)) :=
  [("thoughts",
    [("base_tags", ["analytical", "logical", "conceptual"]),
     ("stress_sensitive_add", ["needs_simplification", "step_by_step"]),
     ("confident_add", ["challenge_worthy", "advanced"]),
     ("analytical_add", ["deep_dive", "explanation"]),
     ("intuitive_add", ["pattern_recognition", "big_picture"])]),
   ("frustration",
    [("base_tags", ["persistence", "resilience", "encouragement"]),
     ("low_resilience_add", ["compassionate", "supportive", "confidence_building"]),
     ("high_resilience_add", ["motivating", "challenge_reframing"]),
     ("stress_sensitive_add", ["calm", "reassuring", "manageable"]),
     ("confident_add", ["capability_reminder", "strength_focus"])]),
   ("fear",
    [("base_tags", ["reassurance", "confidence_building", "support"]),
     ("stress_sensitive_add", ["calming", "grounding", "breathing"]),
     ("low_confidence_add", ["capable_reminder", "success_story"]),
     ("resilient_add", ["challenge_reframe", "strength_building"]),
     ("intrinsic_motivation_add", ["purpose_reminder", "learning_value"])])]

/-- The 0.33/0.67 tier split used by the mapper. -/
def tierOf (value : ℚ) : String :=
  if value < 0.33 then "low"
  else if value < 0.67 then "medium"
  else "high"

/-- `PersonalityMapper.get_tags_from_personality`.  A personality vector is
an insertion-ordered association list; `none`/`{}` both appear as `[]`. -/
def get_tags_from_personality (personality_vector : List (String × ℚ))
    (category : Option String) : List String :=
  let tags1 := personality_vector.foldl (fun acc p =>
    match TRAIT_TO_TAG_MAPPING.lookup p.1 with
    | none => acc
    | some mapping =>
      if mapping.isEmpty then acc
      else acc ++ (mapping.lookup (tierOf p.2)).getD []) []
  let tags2 :=
    match category with
    | some c =>
      if c ≠ "" then
        match CATEGORY_TAG_ENRICHMENT.lookup c with
        | some enrichment =>
          let stress_value := dictGetD personality_vector "stress_sensitivity" 0.5
          let confidence_value := dictGetD personality_vector "self_confidence" 0.5
          let resilience_value := dictGetD personality_vector "resilience" 0.5
          let analytical_value := dictGetD personality_vector "analytical_thinking" 0.5
          let t := tags1 ++ (enrichment.lookup "base_tags").getD []
          let t := if 0.7 < stress_value then
            t ++ (enrichment.lookup "stress_sensitive_add").getD [] else t
          let t := if 0.7 < confidence_value then
            t ++ (enrichment.lookup "confident_add").getD [] else t
          let t := if resilience_value < 0.3 then
            t ++ (enrichment.lookup "low_resilience_add").getD [] else t
          let t := if 0.7 < analytical_value then
            t ++ (enrichment.lookup "analytical_add").getD [] else t
          let t := if analytical_value < 0.33 then
            t ++ (enrichment.lookup "intuitive_add").getD [] else t
          let t := if c = "fear" ∧ confidence_value < 0.3 then
            t ++ (enrichment.lookup "low_confidence_add").getD [] else t
          let t := if c = "fear" ∧ 0.7 < resilience_value then
            t ++ (enrichment.lookup "resilient_add").getD [] else t
          let t := if c = "fear" ∧
              0.7 < dictGetD personality_vector "intrinsic_motivation" 0.5 then
            t ++ (enrichment.lookup "intrinsic_motivation_add").getD [] else t
          t
        | none => tags1
      else tags1
    | none => tags1
  dedupe tags2

/-- Stable descending insertion: place a new element after every element
with a score at least as large.  This reproduces the output of Python
`sorted(..., key=score, reverse=True)`, which is stable. -/
def insertDesc (x : String × ℚ) : List (String × ℚ) → List (String × ℚ)
  | [] => [x]
  | y :: ys => if x.2 ≤ y.2 then y :: insertDesc x ys else x :: y :: ys

def sortDesc : List (String × ℚ) → List (String × ℚ)
  | [] => []
  | x :: xs => insertDesc x (sortDesc xs)

/-- `PersonalityMapper.get_dominant_traits_tags`. -/
def get_dominant_traits_tags (personality_vector : List (String × ℚ))
    (top_n : ℕ) : List String :=
  if personality_vector.isEmpty then []
  else
    let scores := personality_vector.map (fun p => (p.1, |p.2 - 0.5|))
    let top_dimensions := (sortDesc scores).take top_n
    let dominant_tags := top_dimensions.foldl (fun acc p =>
      let value := dictGetD personality_vector p.1 0.5
      acc ++ (((TRAIT_TO_TAG_MAPPING.lookup p.1).getD []).lookup (tierOf value)).getD []) []
    dedupe dominant_tags

/-! ## trait_weighting.py : TraitWeighting -/

/-- Mutable state of a `TraitWeighting` instance (timestamps in minutes). -/
structure TraitWeighting where
  session_id : String
  tag_history : List (String × List ℚ)
  category_history : List (String × List ℚ)
  selected_popups : List (String × ℚ)

def MIN_TAG_REPEAT_MINUTES : ℚ := 15
def MIN_CATEGORY_REPEAT_MINUTES : ℚ := 10

/-- Search the tier dict of one dimension for a tag (tiers in insertion
order), as the `reverse_map` `setdefault` loop does. -/
def findTagInTiers (tag : String) : List (String × List String) → Option String
  | [] => none
  | (tier, tags) :: rest =>
    if tag ∈ tags then some tier else findTagInTiers tag rest

/-- First (dimension, tier) whose tag list contains the tag — the entry the
`setdefault`-built `reverse_map` of `_get_personality_weight` stores. -/
def reverseMapLookup (tag : String) :
    List (String × List (String × List String)) → Option (String × String)
  | [] => none
  | (dimension, tiers) :: rest =>
    match findTagInTiers tag tiers with
    | some tier => some (dimension, tier)
    | none => reverseMapLookup tag rest

/-- `TraitWeighting._get_personality_weight`. -/
def get_personality_weight (tag : String)
    (personality_vector : List (String × ℚ)) : ℚ :=
  match reverseMapLookup tag TRAIT_TO_TAG_MAPPING with
  | none => 1.0
  | some dt =>
    let value := dictGetD personality_vector dt.1 0.5
    let target : ℚ :=
      if dt.2 = "low" then 0.25 else if dt.2 = "high" then 0.75 else 0.5
    let relevance := 1.0 - |value - target| / 0.5
    max 0.3 relevance

/-- Weight of a single candidate tag in `calculate_tag_weights` before
normalization: relevance × recency penalty × novelty bonus, floored at 0.1. -/
def tag_weight (self : TraitWeighting) (now : ℚ)
    (personality_vector : List (String × ℚ)) (tag : String) : ℚ :=
  let weight := 1.0 * get_personality_weight tag personality_vector
  let history := (self.tag_history.lookup tag).getD []
  let recent_uses := history.filter (fun ts => now - ts < MIN_TAG_REPEAT_MINUTES)
  let weight :=
    if ¬ recent_uses.isEmpty then
      weight * (1.0 / (1.0 + (recent_uses.length : ℚ) * 0.5))
    else weight
  let weight := if history.length < 2 then weight * 1.2 else weight
  max 0.1 weight

/-- `TraitWeighting.calculate_tag_weights`.  The Python weights dict keeps
first-occurrence key order and recomputes duplicates to the same value, so
it is the map over the deduplicated candidate list. -/
def calculate_tag_weights (self : TraitWeighting) (now : ℚ)
    (candidate_tags : List String)
    (personality_vector : List (String × ℚ)) : List (String × ℚ) :=
  if candidate_tags.isEmpty then []
  else
    let weights := (dedupe candidate_tags).map
      (fun tag => (tag, tag_weight self now personality_vector tag))
    let total := (weights.map (fun p => p.2)).sum
    if total ≠ 0 then weights.map (fun p => (p.1, p.2 / total)) else weights

/-! ### Helper lemmas for C9 -/

theorem mem_dedupeFrom (a : String) :
    ∀ (seen l : List String), a ∈ l → a ∉ seen → a ∈ dedupeFrom seen l := by
  intro seen l
  induction l generalizing seen with
  | nil => intro h; simp at h
  | cons t ts ih =>
    intro h hseen
    rcases List.mem_cons.1 h with rfl | hmem
    · simp only [dedupeFrom, if_neg hseen]
      exact List.mem_cons_self _ _
    · by_cases ht : t ∈ seen
      · simpa [dedupeFrom, ht] using ih seen hmem hseen
      · simp only [dedupeFrom, if_neg ht]
        by_cases hat : a = t
        · exact hat ▸ List.mem_cons_self _ _
        · exact List.mem_cons_of_mem _
            (ih (t :: seen) hmem (by simp [hat, hseen]))

theorem mem_dedupe (a : String) (l : List String) (h : a ∈ l) :
    a ∈ dedupe l := mem_dedupeFrom a [] l h (by simp)

theorem lookup_map_pair {β : Type} (f : String → β) :
    ∀ (ks : List String) (a : String), a ∈ ks →
      (ks.map (fun t => (t, f t))).lookup a = some (f a) := by
  intro ks
  induction ks with
  | nil => intro a h; simp at h
  | cons k ks ih =>
    intro a h
    by_cases hak : a = k
    · simp [List.lookup, hak]
    · rcases List.mem_cons.1 h with rfl | hmem
      · exact absurd rfl hak
      · have hbeq : (a == k) = false := beq_eq_false_iff_ne.2 hak
        simp only [List.map_cons, List.lookup, hbeq]
        exact ih a hmem

theorem sum_pos_of_point_le (l : List ℚ) (h : ∀ x ∈ l, (0.1 : ℚ) ≤ x)
    (hne : l ≠ []) : 0 < l.sum := by
  induction l with
  | nil => exact absurd rfl hne
  | cons x xs ih =>
    have hx := h x (List.mem_cons_self _ _)
    rcases eq_or_ne xs [] with rfl | hxs
    · simp only [List.sum_cons, List.sum_nil, add_zero]
      linarith
    · have := ih (fun y hy => h y (List.mem_cons_of_mem _ hy)) hxs
      simp only [List.sum_cons]
      linarith

theorem get_personality_weight_ge (tag : String)
    (pv : List (String × ℚ)) : (0.3 : ℚ) ≤ get_personality_weight tag pv := by
  unfold get_personality_weight
  split
  · norm_num
  · exact le_max_left _ _

/-- C9: with equal personality relevance, a candidate tag with zero recorded
uses receives at least the weight of a candidate tag with 5 recorded uses
inside the last 5 minutes, both before and after normalization. -/
theorem claimC9_fresh_tag_outweighs_recent
    (tw : TraitWeighting) (now : ℚ) (cand : List String)
    (pv : List (String × ℚ)) (A B : String)
    (hA : A ∈ cand) (hB : B ∈ cand)
    (hAhist : (tw.tag_history.lookup A).getD [] = [])
    (hBlen : ((tw.tag_history.lookup B).getD []).length = 5)
    (hBrecent : ∀ t ∈ (tw.tag_history.lookup B).getD [], now - t < 5)
    (hrel : get_personality_weight A pv = get_personality_weight B pv) :
    ((calculate_tag_weights tw now cand pv).lookup B).getD 0 ≤
      ((calculate_tag_weights tw now cand pv).lookup A).getD 0 := by
  have hr : (0.3 : ℚ) ≤ get_personality_weight A pv :=
    get_personality_weight_ge A pv
  have hBfilter : ((tw.tag_history.lookup B).getD []).filter
      (fun ts => decide (now - ts < MIN_TAG_REPEAT_MINUTES)) =
      (tw.tag_history.lookup B).getD [] := by
    apply List.filter_eq_self.2
    intro t ht
    apply decide_eq_true
    have := hBrecent t ht
    unfold MIN_TAG_REPEAT_MINUTES
    linarith
  have hBne : (tw.tag_history.lookup B).getD [] ≠ [] := by
    intro h
    rw [h] at hBlen
    simp at hBlen
  have hBempty : ((tw.tag_history.lookup B).getD []).isEmpty = false := by
    rcases h : (tw.tag_history.lookup B).getD [] with _ | _
    · exact absurd h hBne
    · rfl
  have key : tag_weight tw now pv B ≤ tag_weight tw now pv A := by
    simp only [tag_weight, hAhist, hBfilter, hBlen, hBempty, ← hrel,
      List.filter_nil, List.isEmpty_nil, List.length_nil, not_true, not_false_iff,
      if_true, if_false, ite_true, ite_false]
    norm_num
    right
    constructor
    · nlinarith [hr]
    · nlinarith [hr]
  have hne : cand.isEmpty = false := by
    cases cand
    · simp at hA
    · rfl
  simp only [calculate_tag_weights, hne, Bool.false_eq_true, if_false,
    List.map_map]
  have hcomp : ∀ T : ℚ,
      ((fun p : String × ℚ => (p.1, p.2 / T)) ∘
        (fun tag => (tag, tag_weight tw now pv tag))) =
      fun tag => (tag, tag_weight tw now pv tag / T) := fun T => rfl
  split
  · rename_i hT0
    have hWsum : (0 : ℚ) <
        ((dedupe cand).map ((fun p : String × ℚ => p.2) ∘
          (fun tag => (tag, tag_weight tw now pv tag)))).sum := by
      apply sum_pos_of_point_le
      · intro x hx
        simp only [List.mem_map] at hx
        obtain ⟨t, _, rfl⟩ := hx
        exact le_max_left _ _
      · simp only [ne_eq, List.map_eq_nil_iff]
        intro h
        have := mem_dedupe A cand hA
        rw [h] at this
        simp at this
    rw [hcomp, lookup_map_pair _ _ A (mem_dedupe A cand hA),
      lookup_map_pair _ _ B (mem_dedupe B cand hB)]
    simp only [Option.getD_some]
    exact (div_le_div_iff_of_pos_right hWsum).2 key
  · rw [lookup_map_pair _ _ A (mem_dedupe A cand hA),
      lookup_map_pair _ _ B (mem_dedupe B cand hB)]
    simpa using key

/-! ## trait_weighting.py : selection helpers, popup_selector.py

`random` is modelled by an oracle supplying an index for each list length;
Python set iteration is modelled as first-occurrence order (`dedupe`). -/

structure RandOracle where
  pick : ℕ → ℕ

/-- `random.choice` driven by the oracle (`none` only on an empty list). -/
def randChoice {α : Type} (o : RandOracle) (l : List α) : Option α :=
  l[o.pick l.length % l.length]?

/-- A popup/trigger candidate dict; absent keys are `none`. -/
structure Popup where
  id : Option String
  text : Option String
  type : Option String
  tags : List String
deriving DecidableEq

/-- Python truthiness of an optional string. -/
def optTruthy (o : Option String) : Bool :=
  match o with
  | some s => s != ""
  | none => false

/-- `popup.get('id') or popup.get('text')`. -/
def popupKey (p : Popup) : Option String :=
  if optTruthy p.id then p.id else p.text

/-- `TraitWeighting.record_category_use`. -/
def record_category_use (self : TraitWeighting) (now : ℚ) (category : String) :
    TraitWeighting :=
  { self with
      category_history := dictSet self.category_history category
        (((self.category_history.lookup category).getD []) ++ [now]) }

/-- `TraitWeighting.get_variety_score`. -/
def get_variety_score (self : TraitWeighting) : ℚ :=
  if self.selected_popups.length < 2 then 1.0
  else
    let total := self.selected_popups.length
    let unique_count := (dedupe (self.selected_popups.map (fun p => p.1))).length
    if total ≠ 0 then (unique_count : ℚ) / (total : ℚ) else 1.0

/-- `TraitWeighting.should_force_variety`. -/
def should_force_variety (self : TraitWeighting) : Bool :=
  if 5 ≤ self.selected_popups.length ∧
      (dedupe ((self.selected_popups.drop (self.selected_popups.length - 5)).map
        (fun p => p.1))).length ≤ 2 then
    true
  else decide (get_variety_score self < 0.4)

/-- `TraitWeighting.select_weighted_tag`: the weighted `random.choices` draw
is modelled as an oracle pick over the weight dict's keys; the pick appends
to the tag history. -/
def select_weighted_tag (self : TraitWeighting) (o : RandOracle) (now : ℚ)
    (candidate_tags : List String)
    (personality_vector : List (String × ℚ)) :
    Option String × TraitWeighting :=
  if candidate_tags.isEmpty then (none, self)
  else
    let weights := calculate_tag_weights self now candidate_tags personality_vector
    if weights.isEmpty then (randChoice o candidate_tags, self)
    else
      match randChoice o (weights.map (fun p => p.1)) with
      | some selected =>
        let self1 :=
          { self with
              tag_history := dictSet self.tag_history selected
                (((self.tag_history.lookup selected).getD []) ++ [now])
              selected_popups := self.selected_popups ++ [(selected, now)] }
        (some selected, self1)
      | none => (none, self)

/-- `trait_weighting.select_popup_with_weighting` (the session state always
carries the live `TraitWeighting`, passed here directly). -/
def select_popup_with_weighting (popup_pool : List Popup)
    (personality_vector : List (String × ℚ)) (weighting : TraitWeighting)
    (o : RandOracle) (now : ℚ) : Option Popup × TraitWeighting :=
  if popup_pool.isEmpty then (none, weighting)
  else
    let all_tags := popup_pool.foldl (fun acc p => acc ++ p.tags) []
    let tag_to_popup : String → Option Popup :=
      fun tag => popup_pool.find? (fun p => tag ∈ p.tags)
    if all_tags.isEmpty then (randChoice o popup_pool, weighting)
    else
      let chosen :=
        if should_force_variety weighting then
          let rare_tags := (dedupe all_tags).filter
            (fun tag => ((weighting.tag_history.lookup tag).getD []).length < 2)
          if ¬ rare_tags.isEmpty then (randChoice o rare_tags, weighting)
          else select_weighted_tag weighting o now (dedupe all_tags) personality_vector
        else select_weighted_tag weighting o now (dedupe all_tags) personality_vector
      match chosen.1 with
      | some tag =>
        if tag ≠ "" then (tag_to_popup tag, chosen.2)
        else (randChoice o popup_pool, chosen.2)
      | none => (randChoice o popup_pool, chosen.2)

/-- Mutable state of a `PopupSelector` instance. -/
structure PopupSelector where
  session_id : String
  trait_weighting : TraitWeighting
  last_selected : List (Option String × ℚ)

def duplicate_buffer_minutes : ℚ := 30

/-- `PopupSelector._filter_recent`. -/
def filter_recent (self : PopupSelector) (now : ℚ) (popups : List Popup) :
    List Popup :=
  popups.filter (fun p =>
    match self.last_selected.lookup (popupKey p) with
    | none => true
    | some last => decide (duplicate_buffer_minutes < now - last))

/-- `PopupSelector._record_selection`. -/
def record_selection (self : PopupSelector) (now : ℚ) (popup : Popup)
    (category : String) : PopupSelector :=
  { self with
      last_selected := dictSet self.last_selected (popupKey popup) now
      trait_weighting := record_category_use self.trait_weighting now category }

/-- The required-type filter at the head of `select_popup`. -/
def applyTypeFilter (required_type : Option String) (popups : List Popup) :
    List Popup :=
  match required_type with
  | some rt => if rt ≠ "" then popups.filter (fun p => p.type == some rt) else popups
  | none => popups

/-- `PopupSelector._level1_personality_match` (returns the possibly mutated
trait weighting next to the selection). -/
def level1_personality_match (self : PopupSelector) (o : RandOracle) (now : ℚ)
    (popup_pool : List Popup) (personality_vector : List (String × ℚ))
    (category : String) : Option Popup × TraitWeighting :=
  let tags := get_tags_from_personality personality_vector (some category)
  if tags.isEmpty then (none, self.trait_weighting)
  else
    let matching := popup_pool.filter (fun p => p.tags.any (fun t => t ∈ tags))
    if matching.isEmpty then (none, self.trait_weighting)
    else if matching.length = 1 then (matching.head?, self.trait_weighting)
    else select_popup_with_weighting matching personality_vector
      self.trait_weighting o now

/-- Stable descending insertion by a ℕ score (Python `list.sort` with
`reverse=True` is stable). -/
def insertDescNat (x : Popup × ℕ) : List (Popup × ℕ) → List (Popup × ℕ)
  | [] => [x]
  | y :: ys => if x.2 ≤ y.2 then y :: insertDescNat x ys else x :: y :: ys

def sortDescNat : List (Popup × ℕ) → List (Popup × ℕ)
  | [] => []
  | x :: xs => insertDescNat x (sortDescNat xs)

/-- `PopupSelector._level2_fuzzy_match`. -/
def level2_fuzzy_match (self : PopupSelector) (o : RandOracle) (now : ℚ)
    (popup_pool : List Popup) (personality_vector : List (String × ℚ)) :
    Option Popup × TraitWeighting :=
  let dominant_tags := get_dominant_traits_tags personality_vector 5
  if dominant_tags.isEmpty then (none, self.trait_weighting)
  else
    let scored := popup_pool.filterMap (fun p =>
      let matched := (dominant_tags.filter (fun t => t ∈ p.tags)).length
      if matched ≠ 0 then some (p, matched) else none)
    match sortDescNat scored with
    | [] => (none, self.trait_weighting)
    | s0 :: srest =>
      let top_score := s0.2
      let top_matches := ((s0 :: srest).filter (fun p => p.2 = top_score)).map
        (fun p => p.1)
      if top_matches.length = 1 then (top_matches.head?, self.trait_weighting)
      else select_popup_with_weighting top_matches personality_vector
        self.trait_weighting o now

/-- `PopupSelector._level3_category_match`. -/
def level3_category_match (o : RandOracle) (popup_pool : List Popup)
    (category : String) : Option Popup :=
  let base_tags :=
    (((CATEGORY_TAG_ENRICHMENT.lookup category).getD []).lookup "base_tags").getD []
  let matched := popup_pool.filter (fun p => base_tags.any (fun t => t ∈ p.tags))
  if ¬ matched.isEmpty then randChoice o matched else none

/-- `PopupSelector._level4_safe_default`. -/
def level4_safe_default (o : RandOracle) (popup_pool : List Popup) :
    Option Popup :=
  let safe_tags := ["needs_encouragement", "supportive", "compassionate",
    "confidence_building"]
  let matched := popup_pool.filter (fun p => safe_tags.any (fun t => t ∈ p.tags))
  if ¬ matched.isEmpty then randChoice o matched else none

/-- `PopupSelector.select_popup`: the 5-level fallback cascade. -/
def select_popup (self : PopupSelector) (o : RandOracle) (now : ℚ)
    (personality_vector : List (String × ℚ)) (category : String)
    (popups_by_category : List (String × List Popup))
    (required_type : Option String) : Option Popup × PopupSelector :=
  let category_popups :=
    applyTypeFilter required_type ((popups_by_category.lookup category).getD [])
  if category_popups.isEmpty then (none, self)
  else
    let avail0 := filter_recent self now category_popups
    let available := if avail0.isEmpty then category_popups else avail0
    let l1 := level1_personality_match self o now available personality_vector category
    match l1.1 with
    | some selection =>
      (some selection,
        record_selection { self with trait_weighting := l1.2 } now selection category)
    | none =>
      let self1 : PopupSelector := { self with trait_weighting := l1.2 }
      let l2 := level2_fuzzy_match self1 o now available personality_vector
      match l2.1 with
      | some selection =>
        (some selection,
          record_selection { self1 with trait_weighting := l2.2 } now selection category)
      | none =>
        let self2 : PopupSelector := { self1 with trait_weighting := l2.2 }
        match level3_category_match o available category with
        | some selection =>
          (some selection, record_selection self2 now selection category)
        | none =>
          match level4_safe_default o available with
          | some selection =>
            (some selection, record_selection self2 now selection category)
          | none =>
            if ¬ available.isEmpty then
              match randChoice o available with
              | some selection =>
                (some selection, record_selection self2 now selection category)
              | none => (none, self2)
            else (none, self2)

/-- C8: when exactly one popup in the pool left after the required-type
filter and the 30-minute recency filter carries a tag overlapping the tag
set derived from (personality_vector, category), `select_popup` returns that
popup for every random oracle — level 1 is deterministic. -/
theorem claimC8_unique_level1_match
    (sel : PopupSelector) (o : RandOracle) (now : ℚ)
    (pv : List (String × ℚ)) (category : String)
    (pools : List (String × List Popup)) (required_type : Option String)
    (p : Popup)
    (h : (filter_recent sel now
        (applyTypeFilter required_type ((pools.lookup category).getD []))).filter
          (fun q => q.tags.any
            (fun t => t ∈ get_tags_from_personality pv (some category))) = [p]) :
    (select_popup sel o now pv category pools required_type).1 = some p := by
  have hpA : p ∈ filter_recent sel now
      (applyTypeFilter required_type ((pools.lookup category).getD [])) ∧
      p.tags.any (fun t => t ∈ get_tags_from_personality pv (some category)) = true := by
    have := h ▸ List.mem_cons_self p ([] : List Popup)
    exact List.mem_filter.1 this
  have hA0ne : filter_recent sel now
      (applyTypeFilter required_type ((pools.lookup category).getD [])) ≠ [] := by
    intro hh
    rw [filter_recent] at hh h
    rw [hh] at h
    simp at h
  have hP1ne : (applyTypeFilter required_type
      ((pools.lookup category).getD [])).isEmpty = false := by
    rcases hP : applyTypeFilter required_type ((pools.lookup category).getD []) with
      _ | _
    · exact absurd (by rw [filter_recent, hP]; rfl) hA0ne
    · rfl
  have hA0empty : (filter_recent sel now
      (applyTypeFilter required_type ((pools.lookup category).getD []))).isEmpty
        = false := by
    rcases hA : filter_recent sel now
        (applyTypeFilter required_type ((pools.lookup category).getD [])) with _ | _
    · exact absurd hA hA0ne
    · rfl
  have htags : (get_tags_from_personality pv (some category)).isEmpty = false := by
    rcases List.any_eq_true.1 hpA.2 with ⟨t, _, ht⟩
    rcases hT : get_tags_from_personality pv (some category) with _ | _
    · rw [hT] at ht
      simp at ht
    · rfl
  have hlevel1 : level1_personality_match sel o now
      (filter_recent sel now
        (applyTypeFilter required_type ((pools.lookup category).getD [])))
      pv category = (some p, sel.trait_weighting) := by
    rw [level1_personality_match]
    rw [htags, h]
    simp
  rw [select_popup, hP1ne]
  simp only [Bool.false_eq_true, if_false, hA0empty, hlevel1]

/-- Witness for C8: a single fear-category popup tagged `support` overlaps
the derived tag set and is returned deterministically. -/
theorem claimC8_witness :
    (select_popup ⟨"s", ⟨"s", [], [], []⟩, []⟩ ⟨fun _ => 0⟩ 0 [] "fear"
        [("fear", [⟨some "p1", some "hi", some "motivation", ["support"]⟩])]
        none).1 =
      some ⟨some "p1", some "hi", some "motivation", ["support"]⟩ := by
  apply claimC8_unique_level1_match
  have htags : get_tags_from_personality [] (some "fear") =
      ["reassurance", "confidence_building", "support"] := by
    rw [get_tags_from_personality]
    norm_num [dictGetD, dedupe, dedupeFrom]
    simp
  simp [filter_recent, applyTypeFilter, htags, popupKey]

/-! ## session_manager.py : SessionManager -/

/-- One popup performance record (a Python dict; absent keys are `none`). -/
structure PerfRecord where
  correct : Bool
  response_time : Option ℚ
  category : Option String
  timestamp : ℚ
deriving DecidableEq

/-- Mutable state of a `SessionManager` instance. -/
structure SessionManager where
  student_id : String
  initial_assessment : Option (List (String × ℚ))
  current_personality_vector : List (String × ℚ)
  current_traits : List String
  trait_last_updated : Option ℚ
  performance_history : List PerfRecord
  popup_count_since_update : ℕ
deriving DecidableEq

def trait_update_interval_minutes : ℚ := 10

/-- `SessionManager._refresh_traits_from_vector`. -/
def refresh_traits_from_vector (self : SessionManager) (now : ℚ) :
    SessionManager :=
  { self with
      current_traits := get_dominant_traits_tags self.current_personality_vector 5
      trait_last_updated := some now
      popup_count_since_update := 0 }

/-- `SessionManager.load_initial_personality`. -/
def load_initial_personality (self : SessionManager) (now : ℚ)
    (personality_vector : List (String × ℚ)) : SessionManager :=
  refresh_traits_from_vector
    { self with
        initial_assessment := some personality_vector
        current_personality_vector := personality_vector
        trait_last_updated := some now } now

/-- `entry.get('category') or 'unknown'`. -/
def catOf (e : PerfRecord) : String :=
  match e.category with
  | some s => if s = "" then "unknown" else s
  | none => "unknown"

/-- The vector transformation inside
`SessionManager._adjust_personality_from_performance`, on the recent-record
window and the current vector. -/
def adjust_vector (recent : List PerfRecord) (v0 : List (String × ℚ)) :
    List (String × ℚ) :=
  let accuracy : ℚ :=
    ((recent.filter (fun e => e.correct)).length : ℚ) / (recent.length : ℚ)
  let response_times := recent.filterMap (fun e => e.response_time)
  let avg_response_time : ℚ :=
    if ¬ response_times.isEmpty then
      response_times.sum / (response_times.length : ℚ)
    else 30
  let v := v0
  let v :=
    if 0.85 < accuracy then
      let v1 := dictSet v "intrinsic_motivation"
        (max 0.0 (dictGetD v "intrinsic_motivation" 0.5 - 0.05))
      if avg_response_time < 20 then
        dictSet v1 "impulsivity"
          (min 1.0 (dictGetD v1 "impulsivity" 0.5 + 0.08))
      else v1
    else v
  let v :=
    if accuracy < 0.5 then
      let v1 := dictSet v "resilience"
        (max 0.0 (dictGetD v "resilience" 0.5 - 0.05))
      if accuracy < 0.3 then
        dictSet v1 "stress_sensitivity"
          (min 1.0 (dictGetD v1 "stress_sensitivity" 0.5 + 0.08))
      else v1
    else v
  let categories := dedupe (recent.map catOf)
  let v :=
    if categories.length = 1 ∧ 5 ≤ recent.length then
      dictSet v "distraction_resistance"
        (max 0.0 (dictGetD v "distraction_resistance" 0.5 - 0.05))
    else v
  v.map (fun p => (p.1, max 0.0 (min 1.0 p.2)))

/-- `SessionManager._adjust_personality_from_performance`. -/
def adjust_personality_from_performance (self : SessionManager) :
    SessionManager :=
  if self.performance_history.length < 3 then self
  else
    { self with
        current_personality_vector :=
          adjust_vector
            (self.performance_history.drop (self.performance_history.length - 10))
            self.current_personality_vector }

/-- The recompute trigger of `update_personality_from_performance`: the
counter check runs after the increment, the elapsed-time check on the
unchanged `trait_last_updated` (absent means never seeded, no time check). -/
def should_update_flag (s : SessionManager) (now : ℚ) : Bool :=
  (10 ≤ s.popup_count_since_update + 1) ||
  (match s.trait_last_updated with
   | some t => decide (trait_update_interval_minutes < now - t)
   | none => false)

/-- `SessionManager.update_personality_from_performance`. -/
def update_personality_from_performance (self : SessionManager) (now : ℚ)
    (entry : PerfRecord) : SessionManager :=
  let entry1 := { entry with timestamp := now }
  let s1 : SessionManager :=
    { self with
        performance_history := self.performance_history ++ [entry1]
        popup_count_since_update := self.popup_count_since_update + 1 }
  if should_update_flag self now then
    refresh_traits_from_vector (adjust_personality_from_performance s1) now
  else s1

/-- Claim C7's recompute rule, written from the spec's words: on the last
at-most-10 records, accuracy>0.85 lowers intrinsic_motivation by 0.05 and,
with average response time<20, raises impulsivity by 0.08; accuracy<0.5
lowers resilience by 0.05 and, below 0.3, raises stress_sensitivity by 0.08;
one shared category across ≥5 recent records lowers distraction_resistance
by 0.05; every dimension is then reclamped to [0,1]. -/
def claimC7_recompute (recent : List PerfRecord) (v0 : List (String × ℚ)) :
    List (String × ℚ) :=
  let accuracy : ℚ :=
    ((recent.filter (fun e => e.correct)).length : ℚ) / (recent.length : ℚ)
  let response_times := recent.filterMap (fun e => e.response_time)
  let avg_response_time : ℚ :=
    if ¬ response_times.isEmpty then
      response_times.sum / (response_times.length : ℚ)
    else 30
  let v := v0
  let v :=
    if 0.85 < accuracy then
      let v1 := dictSet v "intrinsic_motivation"
        (dictGetD v "intrinsic_motivation" 0.5 - 0.05)
      if avg_response_time < 20 then
        dictSet v1 "impulsivity" (dictGetD v1 "impulsivity" 0.5 + 0.08)
      else v1
    else v
  let v :=
    if accuracy < 0.5 then
      let v1 := dictSet v "resilience" (dictGetD v "resilience" 0.5 - 0.05)
      if accuracy < 0.3 then
        dictSet v1 "stress_sensitivity"
          (dictGetD v1 "stress_sensitivity" 0.5 + 0.08)
      else v1
    else v
  let v :=
    if (dedupe (recent.map catOf)).length = 1 ∧ 5 ≤ recent.length then
      dictSet v "distraction_resistance"
        (dictGetD v "distraction_resistance" 0.5 - 0.05)
    else v
  v.map (fun p => (p.1, max 0.0 (min 1.0 p.2)))

/-! ### Dict lemmas for C7 -/

theorem lookup_map_replace (k k' : String) (x : ℚ) (hne : (k' == k) = false) :
    ∀ d : List (String × ℚ),
      (d.map (fun p => if p.1 == k then (k, x) else p)).lookup k' = d.lookup k' := by
  intro d
  induction d with
  | nil => rfl
  | cons p ds ih =>
    simp only [beq_iff_eq] at ih
    simp only [List.map_cons]
    cases hb : (p.1 == k) with
    | true =>
      have hpk : p.1 = k := by simpa using hb
      simp [List.lookup, hpk, hne, ih]
    | false =>
      cases hk : (k' == p.1) with
      | true => simp [List.lookup, hb, hk]
      | false => simp [List.lookup, hb, hk, ih]

theorem lookup_append_single (k k' : String) (x : ℚ) (hne : (k' == k) = false) :
    ∀ d : List (String × ℚ), (d ++ [(k, x)]).lookup k' = d.lookup k' := by
  intro d
  induction d with
  | nil => simp [List.lookup, hne]
  | cons p ds ih =>
    cases hk : (k' == p.1) <;> simp [List.lookup, hk, ih]

theorem dictGetD_dictSet_ne (d : List (String × ℚ)) (k k' : String) (x d0 : ℚ)
    (hne : (k' == k) = false) :
    dictGetD (dictSet d k x) k' d0 = dictGetD d k' d0 := by
  unfold dictGetD dictSet
  split
  · rw [lookup_map_replace k k' x hne d]
  · rw [lookup_append_single k k' x hne d]

theorem map_clamp_dictSet (d : List (String × ℚ)) (k : String) (x : ℚ) :
    (dictSet d k x).map (fun p => (p.1, max 0.0 (min 1.0 p.2))) =
      dictSet (d.map (fun p => (p.1, max 0.0 (min 1.0 p.2)))) k
        (max 0.0 (min 1.0 x)) := by
  unfold dictSet
  have hany : (d.map (fun p => (p.1, max 0.0 (min 1.0 p.2)))).any
      (fun p => p.1 == k) = d.any (fun p => p.1 == k) := by
    rw [List.any_map]
    rfl
  rw [hany]
  split
  · rw [List.map_map, List.map_map]
    congr 1
    funext p
    cases hb : (p.1 == k) <;> simp [Function.comp, hb]
  · simp

theorem clamp_of_max (x : ℚ) :
    max 0.0 (min 1.0 (max 0.0 x)) = max 0.0 (min 1.0 x) := by
  rcases le_total x 0 with h | h
  · rw [max_eq_left (by norm_num [h] : x ≤ (0.0 : ℚ))]
    rw [min_eq_right (by norm_num : (0.0 : ℚ) ≤ 1.0)]
    rw [max_self]
    have hmin : min (1.0 : ℚ) x ≤ 0.0 := le_trans (min_le_right _ _) (by norm_num [h])
    rw [max_eq_left hmin]
  · rw [max_eq_right (by norm_num [h] : (0.0 : ℚ) ≤ x)]

theorem clamp_of_min (x : ℚ) :
    max 0.0 (min 1.0 (min 1.0 x)) = max 0.0 (min 1.0 x) := by
  rw [← min_assoc, min_self]

/-- The nudge pipeline with per-site floors/ceilings and a final clamp
equals the plain pipeline with a final clamp, for any branch outcomes. -/
theorem nudge_chain_eq (A B C D E : Prop) [Decidable A] [Decidable B]
    [Decidable C] [Decidable D] [Decidable E] (v0 : List (String × ℚ)) :
    (let v :=
      if A then
        let v1 := dictSet v0 "intrinsic_motivation"
          (max 0.0 (dictGetD v0 "intrinsic_motivation" 0.5 - 0.05))
        if B then
          dictSet v1 "impulsivity" (min 1.0 (dictGetD v1 "impulsivity" 0.5 + 0.08))
        else v1
      else v0
    let v :=
      if C then
        let v1 := dictSet v "resilience"
          (max 0.0 (dictGetD v "resilience" 0.5 - 0.05))
        if D then
          dictSet v1 "stress_sensitivity"
            (min 1.0 (dictGetD v1 "stress_sensitivity" 0.5 + 0.08))
        else v1
      else v
    let v :=
      if E then
        dictSet v "distraction_resistance"
          (max 0.0 (dictGetD v "distraction_resistance" 0.5 - 0.05))
      else v
    v.map (fun p => (p.1, max 0.0 (min 1.0 p.2)))) =
    (let v :=
      if A then
        let v1 := dictSet v0 "intrinsic_motivation"
          (dictGetD v0 "intrinsic_motivation" 0.5 - 0.05)
        if B then
          dictSet v1 "impulsivity" (dictGetD v1 "impulsivity" 0.5 + 0.08)
        else v1
      else v0
    let v :=
      if C then
        let v1 := dictSet v "resilience" (dictGetD v "resilience" 0.5 - 0.05)
        if D then
          dictSet v1 "stress_sensitivity"
            (dictGetD v1 "stress_sensitivity" 0.5 + 0.08)
        else v1
      else v
    let v :=
      if E then
        dictSet v "distraction_resistance"
          (dictGetD v "distraction_resistance" 0.5 - 0.05)
      else v
    v.map (fun p => (p.1, max 0.0 (min 1.0 p.2)))) := by
  have hgd : ∀ (kset kget : String), (kget == kset) = false →
      ∀ (d : List (String × ℚ)) (x d0 : ℚ),
        dictGetD (dictSet d kset x) kget d0 = dictGetD d kget d0 :=
    fun kset kget hne d x d0 => dictGetD_dictSet_ne d kset kget x d0 hne
  have h1 := hgd "intrinsic_motivation" "impulsivity" (by decide)
  have h2 := hgd "intrinsic_motivation" "resilience" (by decide)
  have h3 := hgd "impulsivity" "resilience" (by decide)
  have h4 := hgd "intrinsic_motivation" "stress_sensitivity" (by decide)
  have h5 := hgd "impulsivity" "stress_sensitivity" (by decide)
  have h6 := hgd "resilience" "stress_sensitivity" (by decide)
  have h7 := hgd "intrinsic_motivation" "distraction_resistance" (by decide)
  have h8 := hgd "impulsivity" "distraction_resistance" (by decide)
  have h9 := hgd "resilience" "distraction_resistance" (by decide)
  have h10 := hgd "stress_sensitivity" "distraction_resistance" (by decide)
  by_cases hA : A <;> by_cases hB : B <;> by_cases hC : C <;>
    by_cases hD : D <;> by_cases hE : E <;>
    simp only [hA, hB, hC, hD, hE, if_true, if_false, ite_true, ite_false,
      eq_self_iff_true, if_pos, if_neg, not_false_iff, not_true] <;>
    simp only [h1, h2, h3, h4, h5, h6, h7, h8, h9, h10, map_clamp_dictSet,
      clamp_of_max, clamp_of_min]

/-- The code's recompute (with per-site floors/ceilings then a final clamp)
agrees with the claim's plainly-worded nudges followed by one reclamp. -/
theorem adjust_vector_eq_claimC7 (recent : List PerfRecord)
    (v0 : List (String × ℚ)) :
    adjust_vector recent v0 = claimC7_recompute recent v0 := by
  exact nudge_chain_eq _ _ _ _ _ v0

/-- C7 counterexample: after seeding at time 0 and one correct interaction
at time 11 (so the 10-minute trigger fires), the single-record history is
below the 3-record guard, and the code leaves intrinsic_motivation at 0.5,
while the claim's recompute rule (accuracy 1 > 0.85) demands 0.45. -/
theorem claimC7_counterexample :
    should_update_flag
      (load_initial_personality ⟨"stu", none, [], [], none, [], 0⟩ 0
        [("intrinsic_motivation", 0.5)]) 11 = true ∧
    dictGetD (update_personality_from_performance
        (load_initial_personality ⟨"stu", none, [], [], none, [], 0⟩ 0
          [("intrinsic_motivation", 0.5)]) 11
        ⟨true, some 10, some "fear", 0⟩).current_personality_vector
      "intrinsic_motivation" 0.5 = 0.5 ∧
    dictGetD (claimC7_recompute [⟨true, some 10, some "fear", 11⟩]
        [("intrinsic_motivation", 0.5)]) "intrinsic_motivation" 0.5 = 0.45 ∧
    ¬ ((0.5 : ℚ) = 0.45) := by
  have hflag : should_update_flag
      (load_initial_personality ⟨"stu", none, [], [], none, [], 0⟩ 0
        [("intrinsic_motivation", 0.5)]) 11 = true := by
    simp [should_update_flag, load_initial_personality,
      refresh_traits_from_vector, trait_update_interval_minutes]
    norm_num
  refine ⟨hflag, ?_, ?_, by norm_num⟩
  · rw [update_personality_from_performance]
    simp only [hflag, if_true, ite_true]
    rw [refresh_traits_from_vector, adjust_personality_from_performance]
    simp [load_initial_personality, refresh_traits_from_vector, dictGetD]
  · rw [claimC7_recompute]
    simp [dictSet, dictGetD, catOf, dedupe, dedupeFrom]
    norm_num

/-- C7 (amended): each call appends the stamped record; when the counter
reaches 10 or more than 10 minutes have passed since the last recompute,
the counter resets to 0 and the timestamp to now, and — provided at least 3
records then exist — the vector is recomputed from the last at-most-10
records by the claimed nudge rules with a final reclamp to [0,1]; with fewer
than 3 records the vector is left unchanged; without the trigger the counter
just increments and the vector is untouched. -/
theorem claimC7_amended_update (s : SessionManager) (entry : PerfRecord)
    (now : ℚ) :
    (update_personality_from_performance s now entry).performance_history =
      s.performance_history ++ [{ entry with timestamp := now }] ∧
    (update_personality_from_performance s now entry).popup_count_since_update =
      (if should_update_flag s now then 0 else s.popup_count_since_update + 1) ∧
    (update_personality_from_performance s now entry).trait_last_updated =
      (if should_update_flag s now then some now else s.trait_last_updated) ∧
    (update_personality_from_performance s now entry).current_personality_vector =
      (if should_update_flag s now then
        (if 3 ≤ s.performance_history.length + 1 then
          claimC7_recompute
            ((s.performance_history ++ [{ entry with timestamp := now }]).drop
              (s.performance_history.length + 1 - 10))
            s.current_personality_vector
         else s.current_personality_vector)
       else s.current_personality_vector) := by
  cases hsu : should_update_flag s now with
  | false =>
    rw [update_personality_from_performance]
    simp [hsu]
  | true =>
    rw [update_personality_from_performance]
    simp only [hsu, if_true, ite_true]
    rw [refresh_traits_from_vector, adjust_personality_from_performance]
    by_cases h3 : 3 ≤ s.performance_history.length + 1
    · have hlen : ¬ (({ s with
          performance_history := s.performance_history ++ [{ entry with timestamp := now }]
          popup_count_since_update := s.popup_count_since_update + 1 }
            : SessionManager).performance_history.length < 3) := by
        simp only [List.length_append, List.length_cons, List.length_nil]
        omega
      simp only [hlen, if_false, ite_false]
      refine ⟨trivial, trivial, trivial, ?_⟩
      simp only [h3, if_true, ite_true]
      rw [adjust_vector_eq_claimC7]
      simp [List.length_append]
    · have hlen : ({ s with
          performance_history := s.performance_history ++ [{ entry with timestamp := now }]
          popup_count_since_update := s.popup_count_since_update + 1 }
            : SessionManager).performance_history.length < 3 := by
        simp only [List.length_append, List.length_cons, List.length_nil]
        omega
      simp only [hlen, if_true, ite_true]
      refine ⟨trivial, trivial, trivial, ?_⟩
      simp [h3]

/-- Witness for C9: fresh tag "a" against tag "b" used 5 times in the last
5 minutes, equal (unmapped) relevance. -/
theorem claimC9_witness :
    ((calculate_tag_weights ⟨"s", [("b", [0, 1, 2, 3, 4])], [], []⟩ 4.5
        ["a", "b"] []).lookup "b").getD 0 ≤
      ((calculate_tag_weights ⟨"s", [("b", [0, 1, 2, 3, 4])], [], []⟩ 4.5
        ["a", "b"] []).lookup "a").getD 0 := by
  apply claimC9_fresh_tag_outweighs_recent
    ⟨"s", [("b", [0, 1, 2, 3, 4])], [], []⟩ 4.5 ["a", "b"] [] "a" "b"
    (by simp) (by simp) (by rfl) (by rfl)
  · intro t ht
    simp at ht
    rcases ht with rfl | rfl | rfl | rfl | rfl <;> norm_num
  · rfl

/-! ## personality_assessor.py : PersonalityAssessor -/

/-- One answer option of a quiz question. -/
structure AssessOption where
  text : String
  scores : List (String × ℚ)
  traits : List String
deriving DecidableEq

/-- One quiz question (a falsy id, 0, is skipped by the weight builder). -/
structure AssessQuestion where
  id : ℕ
  category : String
  question : String
  options : List AssessOption
deriving DecidableEq

/-- One `{question_id, option_index}` response; absent keys are `none`. -/
structure PAResponse where
  question_id : Option ℕ
  option_index : Option ℤ
deriving DecidableEq

/-- State built by `PersonalityAssessor.__init__`: the (already shuffled and
truncated) question list, the dimension list, and the configured quiz
length `total_questions`. -/
structure PersonalityAssessor where
  questions : List AssessQuestion
  personality_dimensions : List String
  total_questions : ℕ
deriving DecidableEq

/-- The dimensions a question can score, filtered to the known dimensions
(a Python set, modelled in first-occurrence order). -/
def question_dims (a : PersonalityAssessor) (q : AssessQuestion) : List String :=
  (dedupe (q.options.foldl (fun acc o => acc ++ o.scores.map (fun p => p.1)) [])).filter
    (fun d => d ∈ a.personality_dimensions)

/-- `PersonalityAssessor._build_question_dimension_weights`. -/
def build_qdw (a : PersonalityAssessor) : List (ℕ × List (String × ℚ)) :=
  a.questions.foldl (fun m q =>
    let dims := question_dims a q
    if q.id = 0 ∨ dims.isEmpty then m
    else dictSet m q.id (dims.map (fun d => (d, 1 / (dims.length : ℚ))))) []

/-- `PersonalityAssessor._compute_expected_counts` for one dimension. -/
def expected_count (a : PersonalityAssessor) (dim : String) : ℕ :=
  ((build_qdw a).filter (fun p => p.2.any (fun w => w.1 == dim))).length

/-- Error cases surfaced by `analyze_responses`: the `ValueError` on a wrong
response count, and the `KeyError` were a named dimension missing from the
built vector (in `_generate_summary` / `_generate_recommendations`). -/
inductive AssessError where
  | validation (expected got : ℕ)
  | missingDimension
deriving DecidableEq

/-- The per-response accumulation step of `analyze_responses`: skipped when
the question is unknown, the option index absent or out of range; otherwise
each of the question's dimensions gains `raw_score * weight` and `weight`,
and the option's traits are collected. -/
def process_response (a : PersonalityAssessor)
    (acc : List (String × (ℚ × ℚ)) × List String) (r : PAResponse) :
    List (String × (ℚ × ℚ)) × List String :=
  match a.questions.find? (fun q =>
      match r.question_id with
      | some n => q.id == n
      | none => false) with
  | none => acc
  | some q =>
    match r.option_index with
    | none => acc
    | some idx =>
      if idx < 0 ∨ (q.options.length : ℤ) ≤ idx then acc
      else
        match q.options[idx.toNat]? with
        | none => acc
        | some o =>
          let dw :=
            match r.question_id with
            | some n => ((build_qdw a).lookup n).getD []
            | none => []
          let scores := dw.foldl (fun sd p =>
            let raw := dictGetD o.scores p.1 0.5
            let cur := (sd.lookup p.1).getD (0, 0)
            dictSet sd p.1 (cur.1 + raw * p.2, cur.2 + p.2)) acc.1
          (scores, acc.2 ++ o.traits)

/-- The folded dimension scores and extracted traits over all responses. -/
def folded_scores (a : PersonalityAssessor) (responses : List PAResponse) :
    List (String × (ℚ × ℚ)) × List String :=
  responses.foldl (process_response a)
    (a.personality_dimensions.map (fun dim => (dim, ((0 : ℚ), (0 : ℚ)))), [])

/-- One vector entry: weighted average rounded to 2 decimals, 0.5 without
coverage. -/
def vector_value (scores : List (String × (ℚ × ℚ))) (dim : String) : ℚ :=
  let t := (scores.lookup dim).getD (0, 0)
  if 0 < t.2 then round2 (t.1 / t.2) else 0.5

/-- The personality vector built by `analyze_responses`. -/
def build_vector (a : PersonalityAssessor) (responses : List PAResponse) :
    List (String × ℚ) :=
  a.personality_dimensions.map
    (fun dim => (dim, vector_value (folded_scores a responses).1 dim))

def countOcc (l : List String) (t : String) : ℕ :=
  (l.filter (fun x => x == t)).length

/-- The eight dimension values read with `[]` by `_generate_summary` and
`_generate_recommendations`; `none` models the KeyError. -/
structure Dim8 where
  stress : ℚ
  analytical : ℚ
  social : ℚ
  motivation : ℚ
  resilience : ℚ
  confidence : ℚ
  planning : ℚ
  feedback : ℚ
deriving DecidableEq

def getDim8 (v : List (String × ℚ)) : Option Dim8 :=
  match v.lookup "stress_sensitivity", v.lookup "analytical_thinking",
    v.lookup "social_preference", v.lookup "intrinsic_motivation",
    v.lookup "resilience", v.lookup "self_confidence",
    v.lookup "planning_tendency", v.lookup "openness_to_feedback" with
  | some a, some b, some c, some d, some e, some f, some g, some h =>
    some ⟨a, b, c, d, e, f, g, h⟩
  | _, _, _, _, _, _, _, _ => none

/-- `PersonalityAssessor._generate_summary`. -/
def generate_summary (d : Dim8) : String :=
  let classifications : List String :=
    [if d.stress < 0.35 then "calm under pressure"
     else if 0.65 < d.stress then "highly anxiety-prone"
     else "moderate stress response",
     if 0.75 < d.analytical then "strong analytical thinker"
     else if d.analytical < 0.35 then "intuitive/creative learner"
     else "balanced thinker",
     if 0.70 < d.social then "extrovert, collaborative"
     else if d.social < 0.35 then "introvert, independent"
     else "ambivert, flexible socially",
     if 0.70 < d.motivation then "intrinsically motivated (mastery-driven)"
     else if d.motivation < 0.35 then "extrinsically motivated (reward-driven)"
     else "mixed motivation",
     if 0.70 < d.resilience then "highly resilient, bounces back quickly"
     else if d.resilience < 0.35 then "struggles after setbacks"
     else "moderate resilience",
     if 0.70 < d.confidence then "high self-confidence"
     else if d.confidence < 0.35 then "low self-confidence, self-doubting"
     else "moderate confidence",
     if 0.70 < d.planning then "organized, planned approach"
     else if d.planning < 0.35 then "spontaneous, adaptive learner"
     else "balanced planning style",
     if 0.70 < d.feedback then "highly open to feedback"
     else if d.feedback < 0.35 then "defensive, closed to criticism"
     else "moderately receptive to feedback"]
  "Personality Profile: " ++ String.intercalate ", " classifications ++ "."

/-- The recommendation record built by `_generate_recommendations`. -/
structure Recommendations where
  question_difficulty_value : ℚ
  question_difficulty_reason : String
  question_pool : String
  question_pool_reason : String
  trigger_frequency : ℕ
  trigger_frequency_reason : String
  trigger_types : List String
  learning_style : List String
  stress_management : List String
  feedback_handling : String
deriving DecidableEq

/-- `PersonalityAssessor._generate_recommendations`. -/
def generate_recommendations (d : Dim8) : Recommendations :=
  let difficulty : ℚ × String :=
    if 0.70 ≤ d.stress ∨ d.resilience ≤ 0.35 then
      (0.30, "High stress/low resilience - use easier questions to stabilize confidence")
    else if 0.55 ≤ d.stress then
      (0.40, "Moderate stress - keep difficulty gentle but progressive")
    else if d.stress ≤ 0.35 ∧ 0.55 ≤ d.confidence then
      (0.70, "Low stress and decent confidence - push difficulty upward")
    else if 0.80 ≤ d.confidence ∧ 0.70 ≤ d.analytical then
      (0.85, "Very confident + analytical - unlock toughest problems")
    else if d.planning ≤ 0.30 then
      (0.50, "Spontaneous planner - keep moderate difficulty for focus")
    else
      (0.55, "Balanced profile - steady medium difficulty")
  let pool : String × String :=
    if 0.70 ≤ d.stress then
      ("acadza_easy", "High anxiety - start with comforting known questions")
    else if 0.70 ≤ d.analytical ∧ 0.60 ≤ d.confidence then
      ("acadza_challenging", "Strong analytical skills - focus on challenging problems")
    else if d.analytical < 0.40 then
      ("mixed_with_visual", "Intuitive learner - use visual explanations and applications")
    else if d.planning < 0.35 ∧ d.stress < 0.40 then
      ("generated_mixed", "Spontaneous learner - varied generated questions")
    else
      ("mixed_adaptive", "Balanced profile - mix of Acadza and generated questions")
  let frequency : ℕ × String :=
    if 0.75 ≤ d.stress then
      (4, "High stress - nudge often with calming triggers")
    else if d.resilience ≤ 0.35 then
      (5, "Low resilience - regular encouragement between questions")
    else if d.planning < 0.30 then
      (3, "Spontaneous, procrastinator - frequent triggers for urgency")
    else if 0.80 < d.confidence ∧ 0.80 < d.analytical then
      (10, "High confidence - let them flow, minimal interruptions")
    else if 0.75 < d.social then
      (4, "Social, feedback-seeker - regular social validation triggers")
    else
      (6, "Standard trigger frequency for balanced approach")
  let trigger_types : List String :=
    if 0.70 < d.stress then ["motivational", "confidence_building"]
    else if d.planning < 0.35 then ["urgency", "pressure"]
    else if 0.75 < d.social then ["social_validation", "recognition"]
    else ["analytical_challenge", "mastery_focus"]
  let learning_style : List String :=
    [if 0.75 < d.analytical then "Deep conceptual understanding"
     else "Practical application + step-by-step",
     if 0.60 < d.social then "Collaborative study recommended"
     else "Solo study optimal",
     if 0.70 < d.planning then "Structure your study schedule"
     else "Flexible, adaptive study timing"]
  let stress_management : List String :=
    if 0.70 < d.stress then
      ["Take frequent breaks (5 min per hour)",
       "Use calming techniques (breathing exercises)",
       "Start with easier questions to build momentum",
       "Practice mindfulness or meditation"]
    else if d.stress < 0.35 then
      ["Push yourself with challenging problems",
       "Use pressure and competition as motivation"]
    else
      ["Maintain steady, consistent pace",
       "Balance study with breaks"]
  let feedback_handling : String :=
    if d.feedback < 0.40 then
      "Work on accepting criticism - try reframing feedback as data, not judgment"
    else
      "Use feedback actively - implement suggestions immediately"
  { question_difficulty_value := difficulty.1
    question_difficulty_reason := difficulty.2
    question_pool := pool.1
    question_pool_reason := pool.2
    trigger_frequency := frequency.1
    trigger_frequency_reason := frequency.2
    trigger_types := trigger_types
    learning_style := learning_style
    stress_management := stress_management
    feedback_handling := feedback_handling }

/-- How often a response contributes to a dimension in `_verify_weights`. -/
def coverage_count (a : PersonalityAssessor) (responses : List PAResponse)
    (dim : String) : ℕ :=
  (responses.filter (fun r =>
    match r.question_id with
    | some n => (((build_qdw a).lookup n).getD []).any (fun w => w.1 == dim)
    | none => false)).length

/-- The report of `PersonalityAssessor._verify_weights` (the `"c/e"` report
strings are kept as (covered, expected) pairs). -/
structure WeightCheck where
  coverage : List (String × ℕ)
  expected : List (String × ℕ)
  report : List (String × (ℕ × ℕ))
  all_dimensions_covered : Bool
  total_questions_processed : ℕ
deriving DecidableEq

/-- `PersonalityAssessor._verify_weights`. -/
def verify_weights (a : PersonalityAssessor) (responses : List PAResponse) :
    WeightCheck :=
  { coverage := a.personality_dimensions.map
      (fun dim => (dim, coverage_count a responses dim))
    expected := a.personality_dimensions.map
      (fun dim => (dim, expected_count a dim))
    report := a.personality_dimensions.map
      (fun dim => (dim, (coverage_count a responses dim, expected_count a dim)))
    all_dimensions_covered := a.personality_dimensions.all
      (fun dim => decide (0 < coverage_count a responses dim) ||
        decide (expected_count a dim = 0))
    total_questions_processed := responses.length }

/-- The analysis dict returned by `analyze_responses` (timestamp omitted). -/
structure AnalysisResult where
  personality_vector : List (String × ℚ)
  traits : List String
  trait_details : List (String × ℕ)
  summary : String
  recommendations : Recommendations
  weight_check : WeightCheck
  valid : Bool
deriving DecidableEq

/-- `PersonalityAssessor.analyze_responses`. -/
def analyze_responses (a : PersonalityAssessor) (responses : List PAResponse) :
    Except AssessError AnalysisResult :=
  if responses.length ≠ a.total_questions then
    .error (.validation a.total_questions responses.length)
  else
    let folded := folded_scores a responses
    let extracted_traits := folded.2
    let personality_vector := build_vector a responses
    let trait_details := (dedupe extracted_traits).map
      (fun t => (t, countOcc extracted_traits t))
    let top_traits := (dedupe extracted_traits).filter
      (fun t => 2 ≤ countOcc extracted_traits t)
    match getDim8 personality_vector with
    | none => .error .missingDimension
    | some d8 =>
      let weight_check := verify_weights a responses
      .ok { personality_vector := personality_vector
            traits := top_traits
            trait_details := trait_details
            summary := generate_summary d8
            recommendations := generate_recommendations d8
            weight_check := weight_check
            valid := weight_check.all_dimensions_covered }

/-- C6: `analyze_responses` fails with the validation error exactly when the
response count differs from the configured quiz length; with a question bank
whose dimensions cover the eight named dimensions and exactly the configured
number of responses it always returns a full result. -/
theorem claimC6_analyze_error_behavior (a : PersonalityAssessor)
    (responses : List PAResponse) :
    ((∃ e g, analyze_responses a responses = .error (.validation e g)) ↔
      responses.length ≠ a.total_questions) ∧
    ("stress_sensitivity" ∈ a.personality_dimensions →
     "analytical_thinking" ∈ a.personality_dimensions →
     "social_preference" ∈ a.personality_dimensions →
     "intrinsic_motivation" ∈ a.personality_dimensions →
     "resilience" ∈ a.personality_dimensions →
     "self_confidence" ∈ a.personality_dimensions →
     "planning_tendency" ∈ a.personality_dimensions →
     "openness_to_feedback" ∈ a.personality_dimensions →
     responses.length = a.total_questions →
     ∃ r : AnalysisResult, analyze_responses a responses = .ok r) := by
  constructor
  · constructor
    · rintro ⟨e, g, h⟩
      by_contra hl
      simp only [analyze_responses] at h
      rw [if_neg (by simp [hl])] at h
      rcases hd : getDim8 (build_vector a responses) with _ | d8 <;>
        rw [hd] at h <;> simp at h
    · intro hlen
      refine ⟨a.total_questions, responses.length, ?_⟩
      simp only [analyze_responses]
      rw [if_pos hlen]
  · intro h1 h2 h3 h4 h5 h6 h7 h8 hlen
    obtain ⟨d8, hd8⟩ : ∃ d8, getDim8 (build_vector a responses) = some d8 := by
      unfold getDim8 build_vector
      rw [lookup_map_pair _ _ _ h1, lookup_map_pair _ _ _ h2,
        lookup_map_pair _ _ _ h3, lookup_map_pair _ _ _ h4,
        lookup_map_pair _ _ _ h5, lookup_map_pair _ _ _ h6,
        lookup_map_pair _ _ _ h7, lookup_map_pair _ _ _ h8]
      exact ⟨_, rfl⟩
    simp only [analyze_responses, hlen, ne_eq, not_true_eq_false, if_false,
      ite_false, hd8]
    exact ⟨_, rfl⟩

/-- Witness for C6: a one-question bank over the eight dimensions with
exactly one response analyzes successfully. -/
theorem claimC6_witness :
    ∃ r : AnalysisResult,
      analyze_responses
        ⟨[⟨1, "mindset", "Q?", [⟨"A", [("stress_sensitivity", 0.8)], ["calm"]⟩]⟩],
         ["stress_sensitivity", "analytical_thinking", "social_preference",
          "intrinsic_motivation", "resilience", "self_confidence",
          "planning_tendency", "openness_to_feedback"], 1⟩
        [⟨some 1, some 0⟩] = .ok r := by
  exact (claimC6_analyze_error_behavior _ _).2 (by simp) (by simp) (by simp)
    (by simp) (by simp) (by simp) (by simp) (by simp) rfl
